import Mathlib

/-!
# Jenkins CI/CD Demo API: the Express application of `src/app.js`

A shallow embedding of the application object built in `src/app.js` and the
properties of its routes.

* JavaScript values are the type `JsValue`; truthiness is `toBoolean`, and
  `jsonValue` is what `JSON.stringify` makes of a value.
* A handler is a function of the configuration (`process.env`), of the values
  the runtime hands out during the request (`World`: the clock readings and
  `process.uptime()`) and of the request. The route handlers and the two
  fallback handlers return the `Response` that `res.status(..).json(..)`
  writes; middleware returns a `Step`: it answers, calls `next()`, or raises
  an error.
* A request carries its target as received (`originalUrl`) and the path the
  router works with, which the library `parseurl` computes from the target.
* The application is the list `layers`, in the order of the `app.use`,
  `app.get` and `app.post` calls of the source; `dispatch` walks it the way
  the router of Express 4 does (the source mounts a handler on the path
  `'*'`, which is Express 4), and `app` is what goes out on the wire.
* A process is a sequence of `Event`s handled one after the other (`exec`,
  `respondAfter`).

A `Response` is the status code and the JSON value of the body. Response
headers (helmet, cors) and the log lines (morgan, `console.error(err.stack)`)
are not part of it.
-/

namespace JenkinsDemo

/-! ## JavaScript values -/

/-- A JavaScript number. Finite doubles are rationals; `finite 0` is `+0`. -/
inductive JsNumber where
  | nan
  | posInf
  | negInf
  | negZero
  | finite (q : ℚ)

/-- A JavaScript value, as far as JSON bodies and JSON responses need them.
An object is its list of own properties. -/
inductive JsValue where
  | undefined
  | null
  | bool (b : Bool)
  | num (n : JsNumber)
  | str (s : String)
  | arr (items : List JsValue)
  | obj (fields : List (String × JsValue))

/-- ECMAScript `ToBoolean` on numbers: `+0`, `-0` and `NaN` are falsy. -/
def JsNumber.toBoolean : JsNumber → Bool
  | .nan => false
  | .negZero => false
  | .finite q => !(q == 0)
  | .posInf => true
  | .negInf => true

/-- ECMAScript `ToBoolean`: what `!x`, `x || y` and `if (x)` test. -/
def toBoolean : JsValue → Bool
  | .undefined => false
  | .null => false
  | .bool b => b
  | .num n => n.toBoolean
  | .str s => !(s == "")
  | .arr _ => true
  | .obj _ => true

/-- The JavaScript operator `a || b`. -/
def jsOr (a b : JsValue) : JsValue :=
  if toBoolean a then a else b

/-- The comparison `v === s` against a string literal `s`. -/
def strictEqStr (v : JsValue) (s : String) : Bool :=
  match v with
  | .str t => t == s
  | _ => false

/-- Property read `v.key` on an object value; `undefined` when the object has
no such property. -/
def JsValue.get (v : JsValue) (key : String) : JsValue :=
  match v with
  | .obj fields => (fields.lookup key).getD .undefined
  | _ => .undefined

/-- The test `typeof v === "string"` together with `v !== ""`. -/
def JsValue.isNonEmptyText : JsValue → Bool
  | .str s => !(s == "")
  | _ => false

/-- The test `Number.isInteger(v)`. -/
def JsValue.isInteger : JsValue → Bool
  | .num (.finite q) => q.den == 1
  | .num .negZero => true
  | _ => false

/-- The number value of an integer. -/
def JsValue.ofInt (n : Int) : JsValue :=
  .num (.finite n)

/-! ## JSON serialisation: what `JSON.stringify` writes -/

/-- A number as `JSON.stringify` writes it: a finite number as it is, `-0` as
`0`, and `NaN` and the infinities as `null`. -/
def jsonNumber : JsNumber → JsValue
  | .finite q => .num (.finite q)
  | .negZero => .num (.finite 0)
  | .nan => .null
  | .posInf => .null
  | .negInf => .null

mutual
/-- The JSON value of the text `JSON.stringify(v)`; nothing when `v` is
`undefined`. -/
def jsonValue : JsValue → Option JsValue
  | .undefined => none
  | .null => some .null
  | .bool b => some (.bool b)
  | .num n => some (jsonNumber n)
  | .str s => some (.str s)
  | .arr items => some (.arr (jsonItems items))
  | .obj fields => some (.obj (jsonFields fields))
/-- The elements of an array in JSON: `undefined` is written `null`. -/
def jsonItems : List JsValue → List JsValue
  | [] => []
  | x :: xs => (jsonValue x).getD .null :: jsonItems xs
/-- The properties of an object in JSON: one whose value is `undefined` is
left out. -/
def jsonFields : List (String × JsValue) → List (String × JsValue)
  | [] => []
  | (k, v) :: rest =>
    match jsonValue v with
    | some j => (k, j) :: jsonFields rest
    | none => jsonFields rest
end

/-- A finite number. -/
def JsNumber.isFinite : JsNumber → Bool
  | .finite _ => true
  | _ => false

mutual
/-- A value made of `null`, booleans, finite numbers, text, and arrays and
objects of such values. -/
def isPlainJson : JsValue → Bool
  | .undefined => false
  | .null => true
  | .bool _ => true
  | .num n => n.isFinite
  | .str _ => true
  | .arr items => arePlainJson items
  | .obj fields => havePlainJson fields
/-- Every element is a plain JSON value. -/
def arePlainJson : List JsValue → Bool
  | [] => true
  | x :: xs => isPlainJson x && arePlainJson xs
/-- Every property has a plain JSON value. -/
def havePlainJson : List (String × JsValue) → Bool
  | [] => true
  | (_, v) :: rest => isPlainJson v && havePlainJson rest
end

/-! ## Dates: `Date.prototype.toISOString` -/

/-- Decimal digits of `n`, padded with zeros on the left up to `width`. -/
def padZero (width n : Nat) : String :=
  let digits := Nat.toDigits 10 n
  String.mk (List.replicate (width - digits.length) '0' ++ digits)

/-- Year, month (1 to 12) and day of the month (1 to 31) of a day number
counted from 1970-01-01, in the proleptic Gregorian calendar. -/
def civilFromDays (day : Int) : Int × Nat × Nat :=
  let z := day + 719468
  let era := z / 146097
  let doe := (z % 146097).toNat
  let yoe := (doe - doe / 1460 + doe / 36524 - doe / 146096) / 365
  let doy := doe - (365 * yoe + yoe / 4 - yoe / 100)
  let mp := (5 * doy + 2) / 153
  let d := doy - (153 * mp + 2) / 5 + 1
  let m := if mp < 10 then mp + 3 else mp - 9
  let y := (yoe : Int) + era * 400
  (if m ≤ 2 then y + 1 else y, m, d)

/-- The year of an ISO timestamp: four digits from 0 to 9999, otherwise a sign
and six digits. -/
def yearString (y : Int) : String :=
  if 0 ≤ y ∧ y ≤ 9999 then padZero 4 y.toNat
  else if y < 0 then "-" ++ padZero 6 y.natAbs
  else "+" ++ padZero 6 y.toNat

/-- The string `new Date(t).toISOString()` for a time value `t` in
milliseconds since the epoch: `YYYY-MM-DDTHH:mm:ss.sssZ`, in UTC. -/
def toISOString (t : Int) : String :=
  let ms := (t % 86400000).toNat
  let (y, m, d) := civilFromDays (t / 86400000)
  yearString y ++ "-" ++ padZero 2 m ++ "-" ++ padZero 2 d ++ "T" ++
    padZero 2 (ms / 3600000) ++ ":" ++ padZero 2 (ms / 60000 % 60) ++ ":" ++
    padZero 2 (ms / 1000 % 60) ++ "." ++ padZero 3 (ms % 1000) ++ "Z"

/-! ## Requests, responses and the runtime -/

/-- The configuration read from `process.env`: `NODE_ENV` is a string, or it
is not set. -/
structure Config where
  NODE_ENV : Option String

/-- The expression `process.env.NODE_ENV`. -/
def Config.nodeEnv (cfg : Config) : JsValue :=
  match cfg.NODE_ENV with
  | some s => .str s
  | none => .undefined

/-- What the runtime hands out while one request is handled: the value of
`Date.now()`, the time value of `new Date()` (both in milliseconds since the
epoch) and the time the process has been running, in nanoseconds on the
monotonic clock. No handler reads any of the three more than once. -/
structure World where
  dateNow : Int
  newDate : Int
  uptimeNs : Nat

/-- The call `process.uptime()`: the running time in seconds. -/
def World.uptime (w : World) : ℚ :=
  (w.uptimeNs : ℚ) / 1000000000

/-- An error object: its `message`, its `stack` and, when it has one, its
`status` (the errors of the body parsers and of the router carry one). -/
structure JsError where
  message : String
  stack : String
  status : Option Nat

/-- A request body after parsing. `express.json()` (strict by default) yields
an object or an array, `express.urlencoded` an object. -/
inductive ParsedBody where
  | object (fields : List (String × JsValue))
  | array (items : List JsValue)

/-- The properties `name` and `role` that the destructuring
`const { name, role } = req.body` reads: an own property of a body object,
`undefined` when it has none; an array has neither. -/
def ParsedBody.get (b : ParsedBody) (key : String) : JsValue :=
  match b with
  | .object fields => (fields.lookup key).getD .undefined
  | .array _ => .undefined

/-- What the body of a request is to the two body parsers: `absent` when
there is no body or its content type is neither JSON nor URL-encoded;
otherwise the result of the parser in charge, the parsed body or the error
it raises (malformed payload, unsupported charset, payload too large). -/
inductive Payload where
  | absent
  | json (result : Except JsError ParsedBody)
  | urlencoded (result : Except JsError ParsedBody)

/-- A request: `req.method`, `req.originalUrl` (the request target exactly as
received), the path the router works with and the payload. The path is
`parseurl(req).pathname`: the library computes it from the target, which it
strips of the query string and the fragment, and of scheme and host when the
target is in absolute form; there is none when the target has no path. -/
structure Request where
  method : String
  originalUrl : String
  path : Option String
  payload : Payload

/-- The value `req.body` a handler sees: the parsed body, and the empty
object the parsers leave when they did not parse anything. -/
def Request.body (req : Request) : ParsedBody :=
  match req.payload with
  | .json (.ok b) => b
  | .urlencoded (.ok b) => b
  | _ => .object []

/-- The error the body parsers raise on this request, if any. -/
def Request.parseError (req : Request) : Option JsError :=
  match req.payload with
  | .json (.error e) => some e
  | .urlencoded (.error e) => some e
  | _ => none

/-- The method `toLowerCase` on ASCII text such as a method token or a URL. -/
def lowerCase (s : String) : String :=
  String.mk (s.toList.map Char.toLower)

/-- The method `toUpperCase` on ASCII text. -/
def upperCase (s : String) : String :=
  String.mk (s.toList.map Char.toUpper)

/-- The characters that make `parseurl` leave its fast path: white space and
`#`. -/
def leavesFastPath (c : Char) : Bool :=
  c.toNat == 0x09 || c.toNat == 0x0a || c.toNat == 0x0c || c.toNat == 0x0d ||
    c.toNat == 0x20 || c.toNat == 0x23 || c.toNat == 0xa0 || c.toNat == 0xfeff

/-- The fast path of `parseurl`, for a target that starts with `/` and has
none of the characters above: the path is the target up to its first `?`.
Any other target is handed to `url.parse`, which is not modelled. -/
def fastPathname (url : String) : Option String :=
  match url.toList with
  | c :: rest =>
    if c = '/' ∧ rest.any leavesFastPath = false then
      some (String.mk (c :: rest.takeWhile (fun x => x != '?')))
    else none
  | [] => none

/-! ### Percent-decoding: whether `decodeURIComponent` succeeds -/

/-- The value of a hexadecimal digit. -/
def hexDigit (c : Char) : Option Nat :=
  if '0' ≤ c ∧ c ≤ '9' then some (c.toNat - '0'.toNat)
  else if 'a' ≤ c ∧ c ≤ 'f' then some (c.toNat - 'a'.toNat + 10)
  else if 'A' ≤ c ∧ c ≤ 'F' then some (c.toNat - 'A'.toNat + 10)
  else none

/-- An escape `%XY` at the head of the text: its byte and the rest. -/
def readEscape : List Char → Option (Nat × List Char)
  | c :: x :: y :: rest =>
    if c = '%' then
      match hexDigit x, hexDigit y with
      | some a, some b => some (16 * a + b, rest)
      | _, _ => none
    else none
  | _ => none

/-- As many escapes in a row as asked for: their bytes and the rest. -/
def readEscapes : Nat → List Char → Option (List Nat × List Char)
  | 0, cs => some ([], cs)
  | n + 1, cs =>
    match readEscape cs with
    | some (b, rest) =>
      match readEscapes n rest with
      | some (bs, rest₂) => some (b :: bs, rest₂)
      | none => none
    | none => none

/-- The number of bytes of the UTF-8 sequence that the byte `b` starts; zero
when no sequence starts with `b`. -/
def sequenceLength (b : Nat) : Nat :=
  if b < 0x80 then 1
  else if b < 0xC0 then 0
  else if b < 0xE0 then 2
  else if b < 0xF0 then 3
  else if b < 0xF8 then 4
  else 0

/-- A continuation byte of UTF-8. -/
def isContinuation (b : Nat) : Bool :=
  0x80 ≤ b && b ≤ 0xBF

/-- Whether the bytes are the UTF-8 encoding of one code point: shortest
form, no surrogate, at most U+10FFFF. -/
def validUtf8 : List Nat → Bool
  | [b₀] => b₀ < 0x80
  | [b₀, b₁] => 0xC2 ≤ b₀ && b₀ ≤ 0xDF && isContinuation b₁
  | [b₀, b₁, b₂] =>
    ((b₀ == 0xE0 && 0xA0 ≤ b₁ && b₁ ≤ 0xBF) ||
     (0xE1 ≤ b₀ && b₀ ≤ 0xEC && isContinuation b₁) ||
     (b₀ == 0xED && 0x80 ≤ b₁ && b₁ ≤ 0x9F) ||
     (0xEE ≤ b₀ && b₀ ≤ 0xEF && isContinuation b₁)) && isContinuation b₂
  | [b₀, b₁, b₂, b₃] =>
    ((b₀ == 0xF0 && 0x90 ≤ b₁ && b₁ ≤ 0xBF) ||
     (0xF1 ≤ b₀ && b₀ ≤ 0xF3 && isContinuation b₁) ||
     (b₀ == 0xF4 && 0x80 ≤ b₁ && b₁ ≤ 0x8F)) && isContinuation b₂ && isContinuation b₃
  | _ => false

/-- The loop of `decodeURIComponent` over the characters still to read, with
one unit of fuel for each of them: any character but `%` is kept; a `%`
starts an escape, or a run of escapes, that has to spell one code point in
UTF-8. The result tells whether the decoding succeeds. -/
def decodesFrom : Nat → List Char → Bool
  | _, [] => true
  | 0, _ :: _ => false
  | fuel + 1, c :: cs =>
    if c = '%' then
      match readEscape (c :: cs) with
      | none => false
      | some (b, rest) =>
        if sequenceLength b = 0 then false
        else
          match readEscapes (sequenceLength b - 1) rest with
          | none => false
          | some (bs, rest₂) => validUtf8 (b :: bs) && decodesFrom fuel rest₂
    else decodesFrom fuel cs

/-- Whether `decodeURIComponent(text)` returns; otherwise it throws a
`URIError`. -/
def decodes (text : String) : Bool :=
  decodesFrom text.length text.toList

/-- A response: the status code and the JSON value of the body; no JSON body
when the response is ended without one, or carries the HTML page of the
default handler of the framework. -/
structure Response where
  status : Nat
  body : Option JsValue

/-- The JSON body of a response, `undefined` when it has none. -/
def Response.json (r : Response) : JsValue :=
  r.body.getD .undefined

/-- The call `res.status(status).json(value)`: the body is the text
`JSON.stringify(value)`, kept as the JSON value it denotes. -/
def resJson (status : Nat) (value : JsValue) : Response :=
  { status := status, body := jsonValue value }

/-- What `res.send` puts on the wire: the answer to a `HEAD` request goes out
without its body. -/
def send (req : Request) (r : Response) : Response :=
  if req.method == "HEAD" then { r with body := none } else r

/-- What a middleware or handler does with a request: answer it, pass it on
with `next()`, or raise an error (a `throw`, or `next(err)`). -/
inductive Step where
  | respond (r : Response)
  | next
  | fail (e : JsError)

/-! ## Middleware of `src/app.js`, lines 11 to 15 -/

/-- The layer `helmet()`: sets response headers and passes the request on. -/
def helmetMiddleware (_cfg : Config) (_w : World) (_req : Request) : Step :=
  .next

/-- The layer `cors()` with its default options (`preflightContinue: false`,
`optionsSuccessStatus: 204`): a request whose method is `OPTIONS` is taken
for a preflight and answered 204 with an empty body; any other request gets
the CORS headers and is passed on. -/
def corsMiddleware (_cfg : Config) (_w : World) (req : Request) : Step :=
  if upperCase req.method == "OPTIONS" then
    .respond { status := 204, body := none }
  else
    .next

/-- The layer `morgan('combined')`: writes the access log line and passes the
request on. -/
def morganMiddleware (_cfg : Config) (_w : World) (_req : Request) : Step :=
  .next

/-- The layer `express.json()`: a JSON payload is parsed into `req.body`; when
the parser rejects it the error is passed to `next(err)`. Anything else is
passed on untouched, whatever the method and path of the request. -/
def jsonMiddleware (_cfg : Config) (_w : World) (req : Request) : Step :=
  match req.payload with
  | .json (.error e) => .fail e
  | _ => .next

/-- The layer `express.urlencoded({ extended: true })`: the same for a
URL-encoded payload. -/
def urlencodedMiddleware (_cfg : Config) (_w : World) (req : Request) : Step :=
  match req.payload with
  | .urlencoded (.error e) => .fail e
  | _ => .next

/-! ## Route handlers of `src/app.js`, lines 18 to 64 -/

/-- The handler of `app.get('/')`. -/
def rootHandler (cfg : Config) (w : World) (_req : Request) : Response :=
  resJson 200 (.obj [
    ("message", .str "Jenkins CI/CD Demo API"),
    ("version", .str "1.0.0"),
    ("timestamp", .str (toISOString w.newDate)),
    ("environment", jsOr cfg.nodeEnv (.str "development"))])

/-- The handler of `app.get('/health')`. -/
def healthHandler (_cfg : Config) (w : World) (_req : Request) : Response :=
  resJson 200 (.obj [
    ("status", .str "healthy"),
    ("uptime", .num (.finite w.uptime)),
    ("timestamp", .str (toISOString w.newDate))])

/-- The array `users` that the list-users handler builds on every call: the
seed users. -/
def users : List JsValue :=
  [ .obj [("id", .ofInt 1), ("name", .str "Alice"), ("role", .str "DevOps Engineer")],
    .obj [("id", .ofInt 2), ("name", .str "Bob"), ("role", .str "Developer")],
    .obj [("id", .ofInt 3), ("name", .str "Charlie"), ("role", .str "SRE")] ]

/-- The handler of `app.get('/api/users')`. -/
def listUsersHandler (_cfg : Config) (_w : World) (_req : Request) : Response :=
  resJson 200 (.obj [("users", .arr users), ("count", .ofInt users.length)])

/-- The handler of `app.post('/api/users')`. -/
def createUserHandler (_cfg : Config) (w : World) (req : Request) : Response :=
  let name := req.body.get "name"
  let role := req.body.get "role"
  if !toBoolean name || !toBoolean role then
    resJson 400 (.obj [("error", .str "Name and role are required")])
  else
    let newUser := JsValue.obj [
      ("id", .ofInt w.dateNow),
      ("name", name),
      ("role", role),
      ("createdAt", .str (toISOString w.newDate))]
    resJson 201 (.obj [
      ("message", .str "User created successfully"),
      ("user", newUser)])

/-! ## Fallback handlers of `src/app.js`, lines 67 to 81 -/

/-- The error-handling middleware `(err, req, res, next) => ...`. It also
writes `err.stack` to standard error. -/
def errorHandler (cfg : Config) (_w : World) (err : JsError) (_req : Request) : Response :=
  resJson 500 (.obj [
    ("error", .str "Something went wrong!"),
    ("message",
      if strictEqStr cfg.nodeEnv "development" then .str err.message
      else .str "Internal server error")])

/-- The handler of `app.use('*', ...)`. -/
def notFoundHandler (_cfg : Config) (_w : World) (req : Request) : Response :=
  resJson 404 (.obj [
    ("error", .str "Route not found"),
    ("path", .str req.originalUrl)])

/-! ## The Express 4 router -/

/-- Whether a route registered for `method` (in lower case) handles the
method of the request: the methods are compared in lower case, and a `HEAD`
request is served by a `get` route. -/
def methodMatches (method : String) (req : Request) : Bool :=
  let m := lowerCase req.method
  (if m == "head" then "get" else m) == method

/-- Whether the route path matches the path of the request with the router
defaults (not case sensitive, not strict): the same path up to the case of
letters, with or without one trailing slash. -/
def pathMatches (route : String) (req : Request) : Bool :=
  match req.path with
  | none => false
  | some path =>
    let p := lowerCase path
    let r := lowerCase route
    if r == "/" then p == "" || p == "/" else p == r || p == r ++ "/"

/-- One entry of the router stack: plain middleware mounted on every path
(`app.use(fn)`), a route (`app.get`, `app.post`), error-handling middleware
(a function of four arguments), or middleware mounted on the path `'*'`. -/
inductive Layer where
  | use (name : String) (fn : Config → World → Request → Step)
  | route (name method path : String) (fn : Config → World → Request → Step)
  | useError (name : String) (fn : Config → World → JsError → Request → Step)
  | useStar (name : String) (fn : Config → World → Request → Step)

/-- What a request ends in: the names of the layers that ran, in order, and
the response. -/
structure Outcome where
  visited : List String
  response : Response

/-- The layer called `name` ran and made the step `s`. When it does not
answer, the outcome is that of the layers after it: `onNext` with no error
pending, `onFail e` with the error the layer raised. -/
def continueWith (name : String) (s : Step) (onNext : Outcome)
    (onFail : JsError → Outcome) : Outcome :=
  match s with
  | .respond r => { visited := [name], response := r }
  | .next => { onNext with visited := name :: onNext.visited }
  | .fail e => { (onFail e) with visited := name :: (onFail e).visited }

/-- The error the router raises when the path matched by a `'*'` layer does
not percent-decode. -/
def uriError (path : String) : JsError :=
  { message := "Failed to decode param '" ++ path ++ "'"
    stack := "URIError: Failed to decode param '" ++ path ++ "'"
    status := some 400 }

/-- The default handler of the framework, for a request no layer answered:
404 when no error is pending, otherwise the status of the error when it is
one of 400 to 599, and 500. The body is an HTML page, not JSON. -/
def finalHandler (pending : Option JsError) : Response :=
  match pending with
  | none => { status := 404, body := none }
  | some err =>
    match err.status with
    | some st => { status := if 400 ≤ st ∧ st < 600 then st else 500, body := none }
    | none => { status := 500, body := none }

/-- The router loop over the layers, for a request that has a path. With no
error pending, plain middleware runs on every request, a route runs when
method and path match, and error-handling middleware is skipped. With an
error pending, only error-handling middleware runs. A layer mounted on `'*'`
matches every path and takes the whole path as a parameter, which the router
percent-decodes: when that fails the layer is skipped and the `URIError`
becomes the pending error, unless one is pending already. A request that no
layer answers goes to the default handler. -/
def dispatch (cfg : Config) (w : World) (req : Request) (path : String) :
    List Layer → Option JsError → Outcome
  | [], pending => { visited := ["finalhandler"], response := finalHandler pending }
  | .use name fn :: rest, none =>
      continueWith name (fn cfg w req)
        (dispatch cfg w req path rest none) (fun e => dispatch cfg w req path rest (some e))
  | .route name method route fn :: rest, none =>
      if methodMatches method req && pathMatches route req then
        continueWith name (fn cfg w req)
          (dispatch cfg w req path rest none) (fun e => dispatch cfg w req path rest (some e))
      else
        dispatch cfg w req path rest none
  | .useStar name fn :: rest, none =>
      if decodes path then
        continueWith name (fn cfg w req)
          (dispatch cfg w req path rest none) (fun e => dispatch cfg w req path rest (some e))
      else
        dispatch cfg w req path rest (some (uriError path))
  | .useError _ _ :: rest, none => dispatch cfg w req path rest none
  | .useError name fn :: rest, some err =>
      continueWith name (fn cfg w err req)
        (dispatch cfg w req path rest none) (fun e => dispatch cfg w req path rest (some e))
  | .use _ _ :: rest, some err => dispatch cfg w req path rest (some err)
  | .route _ _ _ _ :: rest, some err => dispatch cfg w req path rest (some err)
  | .useStar _ _ :: rest, some err => dispatch cfg w req path rest (some err)

/-- A handler that always answers, as a step: each route handler and both
fallback handlers of `src/app.js` end in `res.json(...)` on every path. -/
def answers (handler : Config → World → Request → Response) :
    Config → World → Request → Step :=
  fun cfg w req => .respond (handler cfg w req)

/-- The stack of `app`, in the order of the calls in `src/app.js`. -/
def layers : List Layer :=
  [ .use "helmet" helmetMiddleware,
    .use "cors" corsMiddleware,
    .use "morgan" morganMiddleware,
    .use "express.json" jsonMiddleware,
    .use "express.urlencoded" urlencodedMiddleware,
    .route "root" "get" "/" (answers rootHandler),
    .route "health" "get" "/health" (answers healthHandler),
    .route "listUsers" "get" "/api/users" (answers listUsersHandler),
    .route "createUser" "post" "/api/users" (answers createUserHandler),
    .useError "errorHandler" (fun cfg w err req => .respond (errorHandler cfg w err req)),
    .useStar "notFound" (answers notFoundHandler) ]

/-- The application: what `app` does with one request and what goes out on
the wire. A request without a path is given up by the router at once and
goes to the default handler. -/
def app (cfg : Config) (w : World) (req : Request) : Outcome :=
  match req.path with
  | none => { visited := ["finalhandler"], response := finalHandler none }
  | some path =>
    { visited := (dispatch cfg w req path layers none).visited
      response := send req (dispatch cfg w req path layers none).response }

/-- Whether method and path of the request match one of the four routes. -/
def matchesSomeRoute (req : Request) : Bool :=
  (methodMatches "get" req && pathMatches "/" req) ||
  (methodMatches "get" req && pathMatches "/health" req) ||
  (methodMatches "get" req && pathMatches "/api/users" req) ||
  (methodMatches "post" req && pathMatches "/api/users" req)

/-! ## A process: requests handled one after the other -/

/-- The state of a running process: the time since it started, in
nanoseconds on the monotonic clock. The application keeps no data of its
own between requests. -/
structure ProcState where
  uptimeNs : Nat

/-- A request arriving: the time elapsed on the monotonic clock since the
event before it, the two wall-clock readings made while it is handled, and
the request. -/
structure Event where
  elapsedNs : Nat
  dateNow : Int
  newDate : Int
  req : Request

/-- A process that has just started. -/
def ProcState.start : ProcState :=
  { uptimeNs := 0 }

/-- The state of the process when the event is handled. -/
def ProcState.advance (s : ProcState) (ev : Event) : ProcState :=
  { uptimeNs := s.uptimeNs + ev.elapsedNs }

/-- What the runtime hands out while the event is handled. -/
def Event.world (s : ProcState) (ev : Event) : World :=
  { dateNow := ev.dateNow, newDate := ev.newDate, uptimeNs := (s.advance ev).uptimeNs }

/-- Handling one event: the new state and the outcome of the request. -/
def step (cfg : Config) (s : ProcState) (ev : Event) : ProcState × Outcome :=
  (s.advance ev, app cfg (ev.world s) ev.req)

/-- The state after a sequence of events. -/
def exec (cfg : Config) (s : ProcState) (history : List Event) : ProcState :=
  history.foldl (fun st ev => (step cfg st ev).1) s

/-- The outcome of `ev` when it is handled after `history` by a process that
was in state `s`. -/
def respondAfter (cfg : Config) (s : ProcState) (history : List Event) (ev : Event) :
    Outcome :=
  (step cfg (exec cfg s history) ev).2

/-- The running time of the process, in seconds, at the moment `ev` is handled
after `history`: what `process.uptime()` returns then. -/
def uptimeAt (cfg : Config) (s : ProcState) (history : List Event) (ev : Event) : ℚ :=
  (ev.world (exec cfg s history)).uptime

/-- The error `express.json()` raises on a JSON body that is cut short. -/
def truncatedJson : JsError :=
  { message := "Unexpected end of JSON input"
    stack := "SyntaxError: Unexpected end of JSON input"
    status := some 400 }

/-- An error thrown with the text `boom`. -/
def boom : JsError :=
  { message := "boom", stack := "Error: boom", status := none }

/-! ## Vocabulary of the specification -/

/-- The values the specification calls absent or falsy: a missing property
(`undefined`), `null`, the empty string, zero (`+0`, `-0`; `NaN` is falsy as
well) and `false`. -/
def IsAbsentOrFalsy (v : JsValue) : Prop :=
  v = .undefined ∨ v = .null ∨ v = .str "" ∨ v = .num (.finite 0) ∨
    v = .num .negZero ∨ v = .num .nan ∨ v = .bool false

/-- A number value that is greater than zero. -/
def JsValue.isPositive : JsValue → Bool
  | .num (.finite q) => decide (0 < q)
  | .num .posInf => true
  | _ => false

/-- The configured deployment environment name the specification speaks of:
the value of `NODE_ENV` when it is set to a name, `"development"` by default
(not set, or set to the empty text). -/
def Config.environmentName (cfg : Config) : String :=
  match cfg.NODE_ENV with
  | some name => if name = "" then "development" else name
  | none => "development"

/-! ## Basic facts -/

theorem toBoolean_eq_false_iff (v : JsValue) :
    toBoolean v = false ↔ IsAbsentOrFalsy v := by
  unfold IsAbsentOrFalsy
  cases v with
  | undefined => simp [toBoolean]
  | null => simp [toBoolean]
  | bool b => cases b <;> simp [toBoolean]
  | num n =>
    cases n with
    | finite q =>
      by_cases hq : q = 0 <;> simp [toBoolean, JsNumber.toBoolean, hq]
    | nan => simp [toBoolean, JsNumber.toBoolean]
    | posInf => simp [toBoolean, JsNumber.toBoolean]
    | negInf => simp [toBoolean, JsNumber.toBoolean]
    | negZero => simp [toBoolean, JsNumber.toBoolean]
  | str s =>
    by_cases hs : s = "" <;> simp [toBoolean, hs]
  | arr items => simp [toBoolean]
  | obj fields => simp [toBoolean]

theorem get_of_missing (fields : List (String × JsValue)) (key : String)
    (h : fields.lookup key = none) :
    (ParsedBody.object fields).get key = .undefined := by
  simp [ParsedBody.get, h]

theorem isInteger_ofInt (n : Int) : (JsValue.ofInt n).isInteger = true := by
  simp [JsValue.ofInt, JsValue.isInteger]

theorem isPositive_ofInt (n : Int) (h : 0 < n) : (JsValue.ofInt n).isPositive = true := by
  simp [JsValue.ofInt, JsValue.isPositive, h]

theorem toISOString_epoch : toISOString 0 = "1970-01-01T00:00:00.000Z" := by
  decide

theorem toISOString_sample : toISOString 1700000000123 = "2023-11-14T22:13:20.123Z" := by
  decide

theorem toISOString_leap_day : toISOString 1709251199999 = "2024-02-29T23:59:59.999Z" := by
  decide

theorem toISOString_before_epoch : toISOString (-1) = "1969-12-31T23:59:59.999Z" := by
  decide

theorem nodeEnv_or_default (cfg : Config) :
    jsOr cfg.nodeEnv (.str "development") = .str cfg.environmentName := by
  unfold Config.nodeEnv Config.environmentName jsOr
  cases h : cfg.NODE_ENV with
  | none => simp [toBoolean]
  | some name =>
    by_cases hn : name = "" <;> simp [toBoolean, hn]

theorem nodeEnv_strictEq_development (cfg : Config) :
    strictEqStr cfg.nodeEnv "development" = true ↔ cfg.NODE_ENV = some "development" := by
  unfold Config.nodeEnv strictEqStr
  cases h : cfg.NODE_ENV with
  | none => simp
  | some name => simp

theorem readEscape_length (cs : List Char) (b : Nat) (rest : List Char)
    (h : readEscape cs = some (b, rest)) : rest.length + 3 = cs.length := by
  match cs with
  | [] => simp [readEscape] at h
  | [_] => simp [readEscape] at h
  | [_, _] => simp [readEscape] at h
  | c :: x :: y :: tail =>
    simp only [readEscape] at h
    split_ifs at h
    split at h
    · simp only [Option.some.injEq, Prod.mk.injEq] at h
      rw [← h.2]
      simp
    · simp at h

theorem readEscapes_length (n : Nat) :
    ∀ (cs : List Char) (bs : List Nat) (rest : List Char),
      readEscapes n cs = some (bs, rest) → rest.length ≤ cs.length := by
  induction n with
  | zero =>
    intro cs bs rest h
    simp only [readEscapes, Option.some.injEq, Prod.mk.injEq] at h
    rw [h.2]
  | succ n ih =>
    intro cs bs rest h
    simp only [readEscapes] at h
    split at h
    · rename_i b r hb
      split at h
      · rename_i bs₂ r₂ hr
        simp only [Option.some.injEq, Prod.mk.injEq] at h
        have h1 := readEscape_length cs b r hb
        have h2 := ih r bs₂ r₂ hr
        rw [← h.2]
        omega
      · simp at h
    · simp at h

/-- The fuel never runs out: with at least one unit for each character, more
fuel does not change the result. -/
theorem decodesFrom_fuel (fuel : Nat) :
    ∀ cs : List Char, cs.length ≤ fuel → decodesFrom (fuel + 1) cs = decodesFrom fuel cs := by
  induction fuel with
  | zero =>
    intro cs h
    match cs with
    | [] => simp [decodesFrom]
    | _ :: _ => simp at h
  | succ fuel ih =>
    intro cs h
    match cs with
    | [] => simp [decodesFrom]
    | c :: cs =>
      simp only [List.length_cons, Nat.add_le_add_iff_right] at h
      rw [decodesFrom, decodesFrom]
      by_cases hc : c = '%'
      · simp only [hc, if_true]
        cases hr : readEscape ('%' :: cs) with
        | none => rfl
        | some p =>
          obtain ⟨b, rest⟩ := p
          have h1 := readEscape_length _ b rest hr
          simp only [List.length_cons] at h1
          by_cases hs : sequenceLength b = 0
          · simp [hs]
          · simp only [hs, if_false]
            cases hrs : readEscapes (sequenceLength b - 1) rest with
            | none => rfl
            | some q =>
              obtain ⟨bs, rest₂⟩ := q
              have h2 := readEscapes_length _ rest bs rest₂ hrs
              simp only
              rw [ih rest₂ (by omega)]
      · simp only [hc, if_false]
        exact ih cs h

/-! ## Serialisation -/

mutual
theorem jsonValue_of_plain : ∀ v : JsValue, isPlainJson v = true → jsonValue v = some v
  | .undefined, h => by simp [isPlainJson] at h
  | .null, _ => by simp [jsonValue]
  | .bool _, _ => by simp [jsonValue]
  | .num n, h => by
    cases n <;> simp [isPlainJson, JsNumber.isFinite] at h
    simp [jsonValue, jsonNumber]
  | .str _, _ => by simp [jsonValue]
  | .arr items, h => by
    simp only [isPlainJson] at h
    simp [jsonValue, jsonItems_of_plain items h]
  | .obj fields, h => by
    simp only [isPlainJson] at h
    simp [jsonValue, jsonFields_of_plain fields h]
theorem jsonItems_of_plain :
    ∀ items : List JsValue, arePlainJson items = true → jsonItems items = items
  | [], _ => by simp [jsonItems]
  | x :: xs, h => by
    simp only [arePlainJson, Bool.and_eq_true] at h
    simp [jsonItems, jsonValue_of_plain x h.1, jsonItems_of_plain xs h.2]
theorem jsonFields_of_plain :
    ∀ fields : List (String × JsValue), havePlainJson fields = true → jsonFields fields = fields
  | [], _ => by simp [jsonFields]
  | (k, v) :: rest, h => by
    simp only [havePlainJson, Bool.and_eq_true] at h
    simp [jsonFields, jsonValue_of_plain v h.1, jsonFields_of_plain rest h.2]
end

theorem jsonValue_of_truthy (v : JsValue) (h : toBoolean v = true) :
    ∃ j, jsonValue v = some j := by
  cases v <;> simp [toBoolean] at h <;> simp [jsonValue]

theorem jsonValue_eq_str_iff (v : JsValue) (s : String) :
    jsonValue v = some (.str s) ↔ v = .str s := by
  cases v with
  | num n => cases n <;> simp [jsonValue, jsonNumber]
  | _ => simp [jsonValue]

theorem fastPathname_with_query :
    fastPathname "/unknown-route?page=2" = some "/unknown-route" := by
  decide

theorem fastPathname_with_fragment : fastPathname "/health#frag" = none := by
  decide

theorem fastPathname_absolute_form : fastPathname "http://localhost/health" = none := by
  decide

/-! ## What the handlers send -/

theorem rootHandler_eq (cfg : Config) (w : World) (req : Request) :
    rootHandler cfg w req =
      { status := 200
        body := some (.obj [
          ("message", .str "Jenkins CI/CD Demo API"),
          ("version", .str "1.0.0"),
          ("timestamp", .str (toISOString w.newDate)),
          ("environment", .str cfg.environmentName)]) } := by
  simp [rootHandler, resJson, jsonValue, jsonFields, nodeEnv_or_default]

theorem healthHandler_eq (cfg : Config) (w : World) (req : Request) :
    healthHandler cfg w req =
      { status := 200
        body := some (.obj [
          ("status", .str "healthy"),
          ("uptime", .num (.finite w.uptime)),
          ("timestamp", .str (toISOString w.newDate))]) } := by
  simp [healthHandler, resJson, jsonValue, jsonFields, jsonNumber]

theorem listUsersHandler_eq (cfg : Config) (w : World) (req : Request) :
    listUsersHandler cfg w req =
      { status := 200
        body := some (.obj [
          ("users", .arr [
            .obj [("id", .ofInt 1), ("name", .str "Alice"), ("role", .str "DevOps Engineer")],
            .obj [("id", .ofInt 2), ("name", .str "Bob"), ("role", .str "Developer")],
            .obj [("id", .ofInt 3), ("name", .str "Charlie"), ("role", .str "SRE")]]),
          ("count", .ofInt 3)]) } := by
  simp [listUsersHandler, users, resJson, jsonValue, jsonFields, jsonItems, jsonNumber,
    JsValue.ofInt]

theorem notFoundHandler_eq (cfg : Config) (w : World) (req : Request) :
    notFoundHandler cfg w req =
      { status := 404
        body := some (.obj [
          ("error", .str "Route not found"),
          ("path", .str req.originalUrl)]) } := by
  simp [notFoundHandler, resJson, jsonValue, jsonFields]

theorem errorHandler_eq (cfg : Config) (w : World) (err : JsError) (req : Request) :
    errorHandler cfg w err req =
      { status := 500
        body := some (.obj [
          ("error", .str "Something went wrong!"),
          ("message", .str (if cfg.NODE_ENV = some "development" then err.message
            else "Internal server error"))]) } := by
  by_cases h : cfg.NODE_ENV = some "development"
  · have hs := (nodeEnv_strictEq_development cfg).mpr h
    simp [errorHandler, resJson, jsonValue, jsonFields, hs, h]
  · have hs : strictEqStr cfg.nodeEnv "development" = false := by
      cases hb : strictEqStr cfg.nodeEnv "development"
      · rfl
      · exact absurd ((nodeEnv_strictEq_development cfg).mp hb) h
    simp [errorHandler, resJson, jsonValue, jsonFields, hs, h]

theorem createUserHandler_rejected (cfg : Config) (w : World) (req : Request)
    (h : toBoolean (req.body.get "name") = false ∨ toBoolean (req.body.get "role") = false) :
    createUserHandler cfg w req =
      { status := 400
        body := some (.obj [("error", .str "Name and role are required")]) } := by
  rcases h with h | h <;>
    simp [createUserHandler, resJson, jsonValue, jsonFields, h]

theorem createUserHandler_created (cfg : Config) (w : World) (req : Request)
    (name role : JsValue)
    (hname : toBoolean (req.body.get "name") = true)
    (hrole : toBoolean (req.body.get "role") = true)
    (hn : jsonValue (req.body.get "name") = some name)
    (hr : jsonValue (req.body.get "role") = some role) :
    createUserHandler cfg w req =
      { status := 201
        body := some (.obj [
          ("message", .str "User created successfully"),
          ("user", .obj [
            ("id", .ofInt w.dateNow),
            ("name", name),
            ("role", role),
            ("createdAt", .str (toISOString w.newDate))])]) } := by
  simp [createUserHandler, resJson, jsonValue, jsonFields, jsonNumber, JsValue.ofInt,
    hname, hrole, hn, hr]

theorem createUserHandler_status (cfg : Config) (w : World) (req : Request) :
    (createUserHandler cfg w req).status = 400 ∨ (createUserHandler cfg w req).status = 201 := by
  simp only [createUserHandler]
  split_ifs <;> simp [resJson]

theorem send_status (req : Request) (r : Response) : (send req r).status = r.status := by
  unfold send
  split_ifs <;> rfl

theorem send_of_GET (req : Request) (r : Response) (h : req.method = "GET") :
    send req r = r := by
  simp [send, h]

theorem send_of_POST (req : Request) (r : Response) (h : req.method = "POST") :
    send req r = r := by
  simp [send, h]

/-! ## How the stack treats a request -/

theorem jsonMiddleware_of_parseError_none (cfg : Config) (w : World) (req : Request)
    (h : req.parseError = none) : jsonMiddleware cfg w req = .next := by
  unfold jsonMiddleware
  unfold Request.parseError at h
  split <;> simp_all

theorem urlencodedMiddleware_of_parseError_none (cfg : Config) (w : World) (req : Request)
    (h : req.parseError = none) : urlencodedMiddleware cfg w req = .next := by
  unfold urlencodedMiddleware
  unfold Request.parseError at h
  split <;> simp_all

/-- The layer that answers a request the middleware passes on: the first of
the four routes that matches; when none does, the not-found handler, or the
default handler when the path does not percent-decode. -/
theorem app_of_pass (cfg : Config) (w : World) (req : Request) (path : String)
    (hpath : req.path = some path)
    (hm : upperCase req.method ≠ "OPTIONS") (he : req.parseError = none) :
    (app cfg w req).response = send req (
      if methodMatches "get" req && pathMatches "/" req then rootHandler cfg w req
      else if methodMatches "get" req && pathMatches "/health" req then healthHandler cfg w req
      else if methodMatches "get" req && pathMatches "/api/users" req then
        listUsersHandler cfg w req
      else if methodMatches "post" req && pathMatches "/api/users" req then
        createUserHandler cfg w req
      else if decodes path then notFoundHandler cfg w req
      else finalHandler (some (uriError path))) := by
  have hj := jsonMiddleware_of_parseError_none cfg w req he
  have hu := urlencodedMiddleware_of_parseError_none cfg w req he
  simp only [app, hpath, layers, dispatch, continueWith, helmetMiddleware, corsMiddleware,
    morganMiddleware, hj, hu, beq_iff_eq, hm, if_false, answers]
  split_ifs <;> rfl

/-- An `OPTIONS` request is answered by the CORS layer, before any route. -/
theorem app_of_options (cfg : Config) (w : World) (req : Request) (path : String)
    (hpath : req.path = some path) (hm : upperCase req.method = "OPTIONS") :
    app cfg w req =
      { visited := ["helmet", "cors"], response := { status := 204, body := none } } := by
  simp [app, hpath, layers, dispatch, continueWith, helmetMiddleware, corsMiddleware, hm, send]

/-- A request the body parsers reject is answered by the error handler, and
no route handler runs. -/
theorem app_of_parse_error (cfg : Config) (w : World) (req : Request) (path : String)
    (e : JsError) (hpath : req.path = some path)
    (hm : upperCase req.method ≠ "OPTIONS") (he : req.parseError = some e) :
    (app cfg w req).response = send req (errorHandler cfg w e req) ∧
    ((app cfg w req).visited = ["helmet", "cors", "morgan", "express.json", "errorHandler"] ∨
     (app cfg w req).visited =
        ["helmet", "cors", "morgan", "express.json", "express.urlencoded", "errorHandler"]) := by
  unfold Request.parseError at he
  cases hp : req.payload with
  | absent => simp [hp] at he
  | json result =>
    cases result with
    | ok b => simp [hp] at he
    | error e2 =>
      simp only [hp, Option.some.injEq] at he
      subst he
      simp [app, hpath, layers, dispatch, continueWith, helmetMiddleware, corsMiddleware,
        morganMiddleware, jsonMiddleware, hp, hm]
  | urlencoded result =>
    cases result with
    | ok b => simp [hp] at he
    | error e2 =>
      simp only [hp, Option.some.injEq] at he
      subst he
      simp [app, hpath, layers, dispatch, continueWith, helmetMiddleware, corsMiddleware,
        morganMiddleware, jsonMiddleware, urlencodedMiddleware, hp, hm]

/-- A request without a path goes to the default handler. -/
theorem app_of_no_path (cfg : Config) (w : World) (req : Request) (hpath : req.path = none) :
    (app cfg w req).response = { status := 404, body := none } := by
  simp [app, hpath, finalHandler]

theorem path_of_pathMatches (route : String) (req : Request)
    (h : pathMatches route req = true) : ∃ path, req.path = some path := by
  unfold pathMatches at h
  cases hp : req.path with
  | none => simp [hp] at h
  | some path => exact ⟨path, rfl⟩

theorem upperCase_GET : upperCase "GET" ≠ "OPTIONS" := by decide

theorem upperCase_POST : upperCase "POST" ≠ "OPTIONS" := by decide

theorem methodMatches_get_GET (req : Request) (h : req.method = "GET") :
    methodMatches "get" req = true := by
  unfold methodMatches
  rw [h]
  decide

theorem methodMatches_post_POST (req : Request) (h : req.method = "POST") :
    methodMatches "post" req = true := by
  unfold methodMatches
  rw [h]
  decide

theorem methodMatches_get_POST (req : Request) (h : req.method = "POST") :
    methodMatches "get" req = false := by
  unfold methodMatches
  rw [h]
  decide

theorem pathMatches_root_iff (req : Request) :
    pathMatches "/" req = true ↔
      ∃ path, req.path = some path ∧ (lowerCase path = "" ∨ lowerCase path = "/") := by
  have h : lowerCase "/" = "/" := by decide
  cases hp : req.path <;> simp [pathMatches, h, hp]

theorem pathMatches_health_iff (req : Request) :
    pathMatches "/health" req = true ↔
      ∃ path, req.path = some path ∧
        (lowerCase path = "/health" ∨ lowerCase path = "/health/") := by
  have h : lowerCase "/health" = "/health" := by decide
  have h2 : ("/health" : String) ≠ "/" := by decide
  have h3 : ("/health" : String) ++ "/" = "/health/" := by decide
  cases hp : req.path <;> simp [pathMatches, h, h2, h3, hp]

theorem pathMatches_users_iff (req : Request) :
    pathMatches "/api/users" req = true ↔
      ∃ path, req.path = some path ∧
        (lowerCase path = "/api/users" ∨ lowerCase path = "/api/users/") := by
  have h : lowerCase "/api/users" = "/api/users" := by decide
  have h2 : ("/api/users" : String) ≠ "/" := by decide
  have h3 : ("/api/users" : String) ++ "/" = "/api/users/" := by decide
  cases hp : req.path <;> simp [pathMatches, h, h2, h3, hp]

theorem not_root_of_health (req : Request) (h : pathMatches "/health" req = true) :
    pathMatches "/" req = false := by
  rw [Bool.eq_false_iff]
  intro hr
  obtain ⟨p, hp, hr⟩ := (pathMatches_root_iff req).mp hr
  obtain ⟨q, hq, h⟩ := (pathMatches_health_iff req).mp h
  rw [hp] at hq
  cases hq
  rcases h with h | h <;> rcases hr with hr | hr <;> rw [h] at hr <;> revert hr <;> decide

theorem not_root_of_users (req : Request) (h : pathMatches "/api/users" req = true) :
    pathMatches "/" req = false := by
  rw [Bool.eq_false_iff]
  intro hr
  obtain ⟨p, hp, hr⟩ := (pathMatches_root_iff req).mp hr
  obtain ⟨q, hq, h⟩ := (pathMatches_users_iff req).mp h
  rw [hp] at hq
  cases hq
  rcases h with h | h <;> rcases hr with hr | hr <;> rw [h] at hr <;> revert hr <;> decide

theorem not_health_of_users (req : Request) (h : pathMatches "/api/users" req = true) :
    pathMatches "/health" req = false := by
  rw [Bool.eq_false_iff]
  intro hr
  obtain ⟨p, hp, hr⟩ := (pathMatches_health_iff req).mp hr
  obtain ⟨q, hq, h⟩ := (pathMatches_users_iff req).mp h
  rw [hp] at hq
  cases hq
  rcases h with h | h <;> rcases hr with hr | hr <;> rw [h] at hr <;> revert hr <;> decide

/-- The answer to a `GET` request on `/` that the body parsers let through. -/
theorem app_get_root (cfg : Config) (w : World) (req : Request)
    (hm : req.method = "GET") (hp : pathMatches "/" req = true)
    (he : req.parseError = none) :
    (app cfg w req).response = rootHandler cfg w req := by
  have hopt : upperCase req.method ≠ "OPTIONS" := by rw [hm]; exact upperCase_GET
  obtain ⟨path, hpath⟩ := path_of_pathMatches _ req hp
  rw [app_of_pass cfg w req path hpath hopt he, send_of_GET req _ hm]
  simp [methodMatches_get_GET req hm, hp]

/-- The answer to a `GET` request on `/health` that the body parsers let
through. -/
theorem app_get_health (cfg : Config) (w : World) (req : Request)
    (hm : req.method = "GET") (hp : pathMatches "/health" req = true)
    (he : req.parseError = none) :
    (app cfg w req).response = healthHandler cfg w req := by
  have hopt : upperCase req.method ≠ "OPTIONS" := by rw [hm]; exact upperCase_GET
  obtain ⟨path, hpath⟩ := path_of_pathMatches _ req hp
  rw [app_of_pass cfg w req path hpath hopt he, send_of_GET req _ hm]
  simp [methodMatches_get_GET req hm, hp, not_root_of_health req hp]

/-- The answer to a `GET` request on `/api/users` that the body parsers let
through. -/
theorem app_get_users (cfg : Config) (w : World) (req : Request)
    (hm : req.method = "GET") (hp : pathMatches "/api/users" req = true)
    (he : req.parseError = none) :
    (app cfg w req).response = listUsersHandler cfg w req := by
  have hopt : upperCase req.method ≠ "OPTIONS" := by rw [hm]; exact upperCase_GET
  obtain ⟨path, hpath⟩ := path_of_pathMatches _ req hp
  rw [app_of_pass cfg w req path hpath hopt he, send_of_GET req _ hm]
  simp [methodMatches_get_GET req hm, hp, not_root_of_users req hp, not_health_of_users req hp]

/-- The answer to a `POST` request on `/api/users` that the body parsers let
through. -/
theorem app_post_users (cfg : Config) (w : World) (req : Request)
    (hm : req.method = "POST") (hp : pathMatches "/api/users" req = true)
    (he : req.parseError = none) :
    (app cfg w req).response = createUserHandler cfg w req := by
  have hopt : upperCase req.method ≠ "OPTIONS" := by rw [hm]; exact upperCase_POST
  obtain ⟨path, hpath⟩ := path_of_pathMatches _ req hp
  rw [app_of_pass cfg w req path hpath hopt he, send_of_POST req _ hm]
  simp [methodMatches_get_POST req hm, methodMatches_post_POST req hm, hp]

theorem exec_append (cfg : Config) (s : ProcState) (h₁ h₂ : List Event) :
    exec cfg s (h₁ ++ h₂) = exec cfg (exec cfg s h₁) h₂ := by
  simp [exec, List.foldl_append]

theorem exec_cons (cfg : Config) (s : ProcState) (ev : Event) (rest : List Event) :
    exec cfg s (ev :: rest) = exec cfg (s.advance ev) rest := by
  simp [exec, step]

theorem uptime_le_exec (cfg : Config) (history : List Event) :
    ∀ s : ProcState, s.uptimeNs ≤ (exec cfg s history).uptimeNs := by
  induction history with
  | nil => intro s; simp [exec]
  | cons ev rest ih =>
    intro s
    rw [exec_cons]
    exact le_trans (by simp [ProcState.advance]) (ih (s.advance ev))

theorem respondAfter_eq (cfg : Config) (s : ProcState) (history : List Event) (ev : Event) :
    respondAfter cfg s history ev = app cfg (ev.world (exec cfg s history)) ev.req := rfl

/-- A target with a fragment, and a target in absolute form: the router works
on the path `/health` and the health route answers. -/
theorem app_health_other_targets :
    (app ⟨none⟩ ⟨0, 0, 5000000000⟩
        ⟨"GET", "/health#frag", some "/health", .absent⟩).response.status = 200 ∧
    (app ⟨none⟩ ⟨0, 0, 5000000000⟩
        ⟨"GET", "http://localhost/health", some "/health", .absent⟩).response.status = 200 := by
  constructor <;> rfl

/-- A fragment that does not percent-decode is not part of the path: the
not-found handler answers, with the target as received. -/
theorem app_unknown_with_fragment :
    (app ⟨none⟩ ⟨0, 0, 0⟩ ⟨"GET", "/a#%", some "/a", .absent⟩).response =
      { status := 404
        body := some (.obj [("error", .str "Route not found"), ("path", .str "/a#%")]) } := by
  rfl

/-! ## POST /api/users: validation and creation -/

/-- C1: for every parsed request body the create-user handler answers 400
exactly when `name` or `role` is absent or falsy (missing, null, empty string,
zero, false); the body of that answer is the object with the single field
`error: "Name and role are required"`; and when both are truthy the status is
not 400. -/
theorem createUser_400_iff_absent_or_falsy (cfg : Config) (w : World) (req : Request) :
    ((createUserHandler cfg w req).status = 400 ↔
      IsAbsentOrFalsy (req.body.get "name") ∨ IsAbsentOrFalsy (req.body.get "role")) ∧
    ((createUserHandler cfg w req).status = 400 →
      (createUserHandler cfg w req).body =
        some (.obj [("error", .str "Name and role are required")])) ∧
    (toBoolean (req.body.get "name") = true → toBoolean (req.body.get "role") = true →
      (createUserHandler cfg w req).status ≠ 400) := by
  simp only [← toBoolean_eq_false_iff]
  unfold createUserHandler
  cases hn : toBoolean (req.body.get "name") <;>
    cases hr : toBoolean (req.body.get "role") <;>
    simp [hn, hr, resJson, jsonValue, jsonFields]

/-- The C1 statement at the body `{"role": "Developer"}` of the test suite:
`name` is missing, the answer is 400 with the fixed error object. -/
theorem createUser_400_iff_absent_or_falsy_witness :
    (createUserHandler ⟨none⟩ ⟨0, 0, 0⟩
        ⟨"POST", "/api/users", some "/api/users", .json (.ok (.object [("role", .str "Developer")]))⟩).status
      = 400 ∧
    (createUserHandler ⟨none⟩ ⟨0, 0, 0⟩
        ⟨"POST", "/api/users", some "/api/users", .json (.ok (.object [("role", .str "Developer")]))⟩).body
      = some (.obj [("error", .str "Name and role are required")]) := by
  have h := createUser_400_iff_absent_or_falsy ⟨none⟩ ⟨0, 0, 0⟩
    ⟨"POST", "/api/users", some "/api/users", .json (.ok (.object [("role", .str "Developer")]))⟩
  have h400 := h.1.mpr (Or.inl (Or.inl rfl))
  exact ⟨h400, h.2.1 h400⟩

/-- C2, as the code has it: for every parsed request body whose `name` and
`role` are both truthy and every clock reading, the create-user handler answers
201 with exactly `message: "User created successfully"` and a `user` made of
`id`, `name`, `role` and `createdAt`. Name and role are the submitted values as
`JSON.stringify` renders them: unchanged whenever they are made of `null`,
booleans, finite numbers, text and arrays and objects of these. The id is the
value of `Date.now()`, an integer, positive exactly when the clock reads a time
after the epoch, and `createdAt` is the ISO rendering of the current time. No
other field of the request body is in the user. -/
theorem createUser_201_of_truthy (cfg : Config) (w : World) (req : Request)
    (hname : toBoolean (req.body.get "name") = true)
    (hrole : toBoolean (req.body.get "role") = true) :
    ∃ name role,
      jsonValue (req.body.get "name") = some name ∧
      jsonValue (req.body.get "role") = some role ∧
      createUserHandler cfg w req =
        { status := 201
          body := some (.obj [
            ("message", .str "User created successfully"),
            ("user", .obj [
              ("id", .ofInt w.dateNow),
              ("name", name),
              ("role", role),
              ("createdAt", .str (toISOString w.newDate))])]) } ∧
      (isPlainJson (req.body.get "name") = true → name = req.body.get "name") ∧
      (isPlainJson (req.body.get "role") = true → role = req.body.get "role") ∧
      (((createUserHandler cfg w req).json.get "user").get "id").isInteger = true ∧
      ((((createUserHandler cfg w req).json.get "user").get "id").isPositive = true ↔
        0 < w.dateNow) := by
  obtain ⟨name, hn⟩ := jsonValue_of_truthy _ hname
  obtain ⟨role, hr⟩ := jsonValue_of_truthy _ hrole
  have hresp := createUserHandler_created cfg w req name role hname hrole hn hr
  refine ⟨name, role, hn, hr, hresp, ?_, ?_, ?_, ?_⟩
  · intro hplain
    have h := jsonValue_of_plain _ hplain
    rw [hn] at h
    exact Option.some.inj h
  · intro hplain
    have h := jsonValue_of_plain _ hplain
    rw [hr] at h
    exact Option.some.inj h
  · rw [hresp]
    simp [Response.json, JsValue.get, List.lookup, JsValue.ofInt, JsValue.isInteger]
  · rw [hresp]
    simp [Response.json, JsValue.get, List.lookup, JsValue.ofInt, JsValue.isPositive]

/-- The C2 statement at the body of the test suite, with an extra field that
does not reach the user. -/
theorem createUser_201_of_truthy_witness :
    createUserHandler ⟨none⟩ ⟨1700000000123, 1700000000124, 0⟩
        ⟨"POST", "/api/users", some "/api/users", .json (.ok (.object
          [("name", .str "Test User"), ("role", .str "QA Engineer"), ("admin", .bool true)]))⟩ =
      { status := 201
        body := some (.obj [
          ("message", .str "User created successfully"),
          ("user", .obj [
            ("id", .ofInt 1700000000123),
            ("name", .str "Test User"),
            ("role", .str "QA Engineer"),
            ("createdAt", .str (toISOString 1700000000124))])]) } ∧
    (((createUserHandler ⟨none⟩ ⟨1700000000123, 1700000000124, 0⟩
        ⟨"POST", "/api/users", some "/api/users", .json (.ok (.object
          [("name", .str "Test User"), ("role", .str "QA Engineer"),
            ("admin", .bool true)]))⟩).json.get "user").get "id").isPositive = true := by
  obtain ⟨name, role, _, _, hresp, hn, hr, _, hpos⟩ :=
    createUser_201_of_truthy ⟨none⟩ ⟨1700000000123, 1700000000124, 0⟩
      ⟨"POST", "/api/users", some "/api/users", .json (.ok (.object
        [("name", .str "Test User"), ("role", .str "QA Engineer"), ("admin", .bool true)]))⟩
      rfl rfl
  have hn' : name = .str "Test User" := hn rfl
  have hr' : role = .str "QA Engineer" := hr rfl
  rw [hn', hr'] at hresp
  exact ⟨hresp, hpos.mpr (by decide)⟩

/-- C2 fails as stated, twice. The body `{"name": 1e400, "role": "x"}` is
parsed with the name `Infinity`, which is truthy: the answer is 201 and the
name of the user goes out as `null`, not as submitted. And with the clock at
the epoch, `Date.now()` is 0 and the id of the user is not positive. -/
theorem created_user_not_as_submitted :
    toBoolean (.num .posInf) = true ∧
    (createUserHandler ⟨none⟩ ⟨1700000000123, 1700000000124, 0⟩
        ⟨"POST", "/api/users", some "/api/users", .json (.ok (.object
          [("name", .num .posInf), ("role", .str "x")]))⟩).status = 201 ∧
    ((createUserHandler ⟨none⟩ ⟨1700000000123, 1700000000124, 0⟩
        ⟨"POST", "/api/users", some "/api/users", .json (.ok (.object
          [("name", .num .posInf), ("role", .str "x")]))⟩).json.get "user").get "name"
      = .null ∧
    (createUserHandler ⟨none⟩ ⟨0, 0, 0⟩
        ⟨"POST", "/api/users", some "/api/users", .json (.ok (.object
          [("name", .str "Test User"), ("role", .str "QA Engineer")]))⟩).status = 201 ∧
    (((createUserHandler ⟨none⟩ ⟨0, 0, 0⟩
        ⟨"POST", "/api/users", some "/api/users", .json (.ok (.object
          [("name", .str "Test User"), ("role", .str "QA Engineer")]))⟩).json.get
        "user").get "id").isPositive = false := by
  refine ⟨rfl, rfl, rfl, rfl, ?_⟩
  simp [createUserHandler, Request.body, ParsedBody.get, List.lookup, toBoolean, resJson,
    jsonValue, jsonFields, jsonNumber, Response.json, JsValue.get, JsValue.ofInt,
    JsValue.isPositive]

/-- C8, as the code has it: every seed user has an integer `id` and a `name`
and a `role` that are non-empty text. The user of a 201 answer has an integer
`id`; its `name` is non-empty text exactly when the submitted name is text,
and is then that text unchanged, and likewise its `role`. -/
theorem returned_users_shape :
    (∀ u ∈ users,
      (u.get "id").isInteger = true ∧ (u.get "name").isNonEmptyText = true ∧
        (u.get "role").isNonEmptyText = true) ∧
    (∀ (cfg : Config) (w : World) (req : Request),
      (createUserHandler cfg w req).status = 201 →
        (((createUserHandler cfg w req).json.get "user").get "id").isInteger = true ∧
        ((((createUserHandler cfg w req).json.get "user").get "name").isNonEmptyText = true ↔
          ∃ n, req.body.get "name" = .str n) ∧
        (∀ n, req.body.get "name" = .str n →
          ((createUserHandler cfg w req).json.get "user").get "name" = .str n) ∧
        ((((createUserHandler cfg w req).json.get "user").get "role").isNonEmptyText = true ↔
          ∃ r, req.body.get "role" = .str r) ∧
        (∀ r, req.body.get "role" = .str r →
          ((createUserHandler cfg w req).json.get "user").get "role" = .str r)) := by
  constructor
  · intro u hu
    simp only [users, List.mem_cons, List.mem_singleton, List.not_mem_nil, or_false] at hu
    rcases hu with rfl | rfl | rfl <;>
      simp [JsValue.get, List.lookup, JsValue.ofInt, JsValue.isInteger, JsValue.isNonEmptyText]
  · intro cfg w req h201
    have hn : toBoolean (req.body.get "name") = true := by
      cases h : toBoolean (req.body.get "name")
      · rw [createUserHandler_rejected cfg w req (Or.inl h)] at h201
        simp at h201
      · rfl
    have hr : toBoolean (req.body.get "role") = true := by
      cases h : toBoolean (req.body.get "role")
      · rw [createUserHandler_rejected cfg w req (Or.inr h)] at h201
        simp at h201
      · rfl
    obtain ⟨name, hjn⟩ := jsonValue_of_truthy _ hn
    obtain ⟨role, hjr⟩ := jsonValue_of_truthy _ hr
    have hresp := createUserHandler_created cfg w req name role hn hr hjn hjr
    have hid : (((createUserHandler cfg w req).json.get "user").get "id").isInteger = true := by
      rw [hresp]
      simp [Response.json, JsValue.get, List.lookup, JsValue.ofInt, JsValue.isInteger]
    have hname : ((createUserHandler cfg w req).json.get "user").get "name" = name := by
      rw [hresp]
      simp [Response.json, JsValue.get, List.lookup]
    have hrole : ((createUserHandler cfg w req).json.get "user").get "role" = role := by
      rw [hresp]
      simp [Response.json, JsValue.get, List.lookup]
    rw [hname, hrole]
    refine ⟨hid, ⟨?_, ?_⟩, ?_, ⟨?_, ?_⟩, ?_⟩
    · intro htext
      cases name <;> simp [JsValue.isNonEmptyText] at htext
      exact ⟨_, (jsonValue_eq_str_iff _ _).mp hjn⟩
    · rintro ⟨n, hstr⟩
      rw [hstr] at hn hjn
      simp only [jsonValue, Option.some.injEq] at hjn
      rw [← hjn]
      simpa [toBoolean, JsValue.isNonEmptyText] using hn
    · intro n hstr
      rw [hstr] at hjn
      simp only [jsonValue, Option.some.injEq] at hjn
      exact hjn.symm
    · intro htext
      cases role <;> simp [JsValue.isNonEmptyText] at htext
      exact ⟨_, (jsonValue_eq_str_iff _ _).mp hjr⟩
    · rintro ⟨r, hstr⟩
      rw [hstr] at hr hjr
      simp only [jsonValue, Option.some.injEq] at hjr
      rw [← hjr]
      simpa [toBoolean, JsValue.isNonEmptyText] using hr
    · intro r hstr
      rw [hstr] at hjr
      simp only [jsonValue, Option.some.injEq] at hjr
      exact hjr.symm

/-- The users-shape statement at the seed user Alice and at the created user
of the test suite. -/
theorem returned_users_shape_witness :
    ((JsValue.obj [("id", .ofInt 1), ("name", .str "Alice"),
        ("role", .str "DevOps Engineer")]).get "name").isNonEmptyText = true ∧
    ((createUserHandler ⟨none⟩ ⟨1700000000123, 1700000000124, 0⟩
        ⟨"POST", "/api/users", some "/api/users", .json (.ok (.object
          [("name", .str "Test User"), ("role", .str "QA Engineer")]))⟩).json.get
        "user").get "name" = .str "Test User" := by
  have h := returned_users_shape
  refine ⟨(h.1 _ (by simp [users])).2.1, ?_⟩
  exact (h.2 ⟨none⟩ ⟨1700000000123, 1700000000124, 0⟩
    ⟨"POST", "/api/users", some "/api/users", .json (.ok (.object
      [("name", .str "Test User"), ("role", .str "QA Engineer")]))⟩ rfl).2.2.1
    "Test User" rfl

/-- C8 fails as stated: the body `{"name": 42, "role": true}` passes the
validation, and the user of the 201 response has the number 42 as `name` and
the boolean `true` as `role`, neither of which is text. -/
theorem created_user_name_not_text :
    (createUserHandler ⟨none⟩ ⟨1700000000123, 1700000000124, 0⟩
        ⟨"POST", "/api/users", some "/api/users", .json (.ok (.object
          [("name", .num (.finite 42)), ("role", .bool true)]))⟩).status = 201 ∧
    ((createUserHandler ⟨none⟩ ⟨1700000000123, 1700000000124, 0⟩
        ⟨"POST", "/api/users", some "/api/users", .json (.ok (.object
          [("name", .num (.finite 42)), ("role", .bool true)]))⟩).json.get "user").get "name"
      = .num (.finite 42) ∧
    (JsValue.num (.finite 42)).isNonEmptyText = false ∧
    ((createUserHandler ⟨none⟩ ⟨1700000000123, 1700000000124, 0⟩
        ⟨"POST", "/api/users", some "/api/users", .json (.ok (.object
          [("name", .num (.finite 42)), ("role", .bool true)]))⟩).json.get "user").get "role"
      = .bool true ∧
    (JsValue.bool true).isNonEmptyText = false := by
  refine ⟨?_, ?_, rfl, ?_, rfl⟩ <;>
    simp [createUserHandler, Request.body, ParsedBody.get, List.lookup, toBoolean,
      JsNumber.toBoolean, Response.json, JsValue.get, resJson, jsonValue, jsonFields,
      jsonNumber, JsValue.ofInt]

/-! ## The generic error handler -/

/-- C5: for every error that reaches the error handler and every environment
name, the answer is 500 with exactly the fields `error: "Something went
wrong!"` and `message`; the message is the text of the error when `NODE_ENV`
is `"development"`, and `"Internal server error"` for any other setting, in
which case the answer is the same for every error. -/
theorem errorHandler_response (cfg : Config) (w : World) (err : JsError) (req : Request) :
    (cfg.NODE_ENV = some "development" →
      errorHandler cfg w err req =
        { status := 500
          body := some (.obj [
            ("error", .str "Something went wrong!"),
            ("message", .str err.message)]) }) ∧
    (cfg.NODE_ENV ≠ some "development" →
      errorHandler cfg w err req =
        { status := 500
          body := some (.obj [
            ("error", .str "Something went wrong!"),
            ("message", .str "Internal server error")]) } ∧
      ∀ other : JsError, errorHandler cfg w other req = errorHandler cfg w err req) := by
  constructor
  · intro h
    simp [errorHandler_eq, h]
  · intro h
    simp [errorHandler_eq, h]

/-- The C5 statement in development and in production, for one error. -/
theorem errorHandler_response_witness :
    errorHandler ⟨some "development"⟩ ⟨0, 0, 0⟩ boom
        ⟨"GET", "/", some "/", .absent⟩ =
      { status := 500
        body := some (.obj [
          ("error", .str "Something went wrong!"), ("message", .str "boom")]) } ∧
    errorHandler ⟨some "production"⟩ ⟨0, 0, 0⟩ boom
        ⟨"GET", "/", some "/", .absent⟩ =
      { status := 500
        body := some (.obj [
          ("error", .str "Something went wrong!"),
          ("message", .str "Internal server error")]) } :=
  ⟨(errorHandler_response ⟨some "development"⟩ ⟨0, 0, 0⟩ boom
      ⟨"GET", "/", some "/", .absent⟩).1 rfl,
   ((errorHandler_response ⟨some "production"⟩ ⟨0, 0, 0⟩ boom
      ⟨"GET", "/", some "/", .absent⟩).2 (by decide)).1⟩

/-- C6 at its failing input: with `NODE_ENV` not set, `GET /` reports the
environment `"development"`, while the error handler answers an error whose
text is `"boom"` with the message `"Internal server error"`. -/
theorem unset_env_hides_error_text :
    rootHandler ⟨none⟩ ⟨0, 0, 0⟩ ⟨"GET", "/", some "/", .absent⟩ =
      { status := 200
        body := some (.obj [
          ("message", .str "Jenkins CI/CD Demo API"),
          ("version", .str "1.0.0"),
          ("timestamp", .str (toISOString 0)),
          ("environment", .str "development")]) } ∧
    errorHandler ⟨none⟩ ⟨0, 0, 0⟩ boom ⟨"GET", "/", some "/", .absent⟩ =
      { status := 500
        body := some (.obj [
          ("error", .str "Something went wrong!"),
          ("message", .str "Internal server error")]) } := by
  constructor
  · rw [rootHandler_eq]
    rfl
  · rw [errorHandler_eq]
    rfl

/-! ## Malformed bodies -/

/-- C7: for every `POST /api/users` request whose body the parsers cannot
parse, the body-parsing middleware fails the request and the create-user
handler does not run, although its route matches; the error handler answers
500 with the fields `error: "Something went wrong!"` and `message`. The answer
is neither 201 nor the 400 of the validation. -/
theorem malformed_body_answered_500 (cfg : Config) (w : World) (req : Request) (e : JsError)
    (hm : req.method = "POST") (hp : pathMatches "/api/users" req = true)
    (he : req.parseError = some e) :
    (methodMatches "post" req && pathMatches "/api/users" req) = true ∧
    "createUser" ∉ (app cfg w req).visited ∧
    "express.json" ∈ (app cfg w req).visited ∧
    "errorHandler" ∈ (app cfg w req).visited ∧
    (app cfg w req).response = errorHandler cfg w e req ∧
    (app cfg w req).response =
      { status := 500
        body := some (.obj [
          ("error", .str "Something went wrong!"),
          ("message", .str (if cfg.NODE_ENV = some "development" then e.message
            else "Internal server error"))]) } ∧
    (app cfg w req).response.status ≠ 201 ∧ (app cfg w req).response.status ≠ 400 := by
  have hopt : upperCase req.method ≠ "OPTIONS" := by rw [hm]; exact upperCase_POST
  obtain ⟨path, hpath⟩ := path_of_pathMatches _ req hp
  obtain ⟨hresp, hvis⟩ := app_of_parse_error cfg w req path e hpath hopt he
  rw [send_of_POST req _ hm] at hresp
  refine ⟨by simp [methodMatches_post_POST req hm, hp], ?_, ?_, ?_, hresp, ?_, ?_, ?_⟩
  · rcases hvis with hv | hv <;> rw [hv] <;> decide
  · rcases hvis with hv | hv <;> rw [hv] <;> decide
  · rcases hvis with hv | hv <;> rw [hv] <;> decide
  · rw [hresp, errorHandler_eq]
  · rw [hresp, errorHandler_eq]
    simp
  · rw [hresp, errorHandler_eq]
    simp

/-- The C7 statement at a `POST /api/users` whose JSON body is cut short. -/
theorem malformed_body_answered_500_witness :
    "createUser" ∉ (app ⟨some "production"⟩ ⟨0, 0, 0⟩ ⟨"POST", "/api/users", some "/api/users",
        .json (.error truncatedJson)⟩).visited ∧
    (app ⟨some "production"⟩ ⟨0, 0, 0⟩ ⟨"POST", "/api/users", some "/api/users",
        .json (.error truncatedJson)⟩).response =
      { status := 500
        body := some (.obj [
          ("error", .str "Something went wrong!"),
          ("message", .str "Internal server error")]) } := by
  have h := malformed_body_answered_500 ⟨some "production"⟩ ⟨0, 0, 0⟩ ⟨"POST", "/api/users", some "/api/users",
    .json (.error truncatedJson)⟩
    truncatedJson rfl (by decide) rfl
  exact ⟨h.2.1, h.2.2.2.2.2.1⟩

/-! ## The not-found handler -/

/-- C4, as the code has it: a request that the middleware passes on to the
routes (its method is not `OPTIONS`, which the CORS layer answers itself, and
the body parsers do not reject it), that matches none of the four routes and
whose path percent-decodes is answered 404, with exactly `error: "Route not
found"` and `path`, the original URL as received, query string included; the
answer to a `HEAD` request goes out without the body. A request that matches
one of the four routes is never answered 404. -/
theorem unmatched_request_404 (cfg : Config) (w : World) (req : Request) (path : String) :
    (upperCase req.method ≠ "OPTIONS" → req.parseError = none →
      req.path = some path → decodes path = true →
      matchesSomeRoute req = false →
      (app cfg w req).response =
        { status := 404
          body :=
            if req.method = "HEAD" then none
            else some (.obj [
              ("error", .str "Route not found"),
              ("path", .str req.originalUrl)]) }) ∧
    (matchesSomeRoute req = true → (app cfg w req).response.status ≠ 404) := by
  constructor
  · intro hopt he hpath hdec hno
    rw [app_of_pass cfg w req path hpath hopt he]
    simp only [matchesSomeRoute, Bool.or_eq_false_iff] at hno
    obtain ⟨⟨⟨h1, h2⟩, h3⟩, h4⟩ := hno
    simp only [h1, h2, h3, h4, hdec, if_true, notFoundHandler_eq, send, beq_iff_eq]
    by_cases hhead : req.method = "HEAD" <;> simp [hhead]
  · intro hyes
    have hsome : ∃ p, req.path = some p := by
      simp only [matchesSomeRoute, Bool.or_eq_true, Bool.and_eq_true] at hyes
      rcases hyes with ((h | h) | h) | h <;> exact path_of_pathMatches _ req h.2
    obtain ⟨p, hp⟩ := hsome
    by_cases hopt : upperCase req.method = "OPTIONS"
    · rw [app_of_options cfg w req p hp hopt]
      decide
    · cases he : req.parseError with
      | some e =>
        rw [(app_of_parse_error cfg w req p e hp hopt he).1, send_status, errorHandler_eq]
        simp
      | none =>
        rw [app_of_pass cfg w req p hp hopt he, send_status]
        simp only [matchesSomeRoute, Bool.or_eq_true] at hyes
        split_ifs with h1 h2 h3 h4
        · simp [rootHandler_eq]
        · simp [healthHandler_eq]
        · simp [listUsersHandler_eq]
        · rcases createUserHandler_status cfg w req with h | h <;> rw [h] <;> decide
        · rcases hyes with ((h | h) | h) | h <;> contradiction
        · rcases hyes with ((h | h) | h) | h <;> contradiction

/-- The C4 statement at the request of the test suite with a query string, at
a `HEAD` on the same target, and at a `POST` on the create-user route. -/
theorem unmatched_request_404_witness :
    (app ⟨none⟩ ⟨0, 0, 0⟩
        ⟨"GET", "/unknown-route?page=2", some "/unknown-route", .absent⟩).response =
      { status := 404
        body := some (.obj [
          ("error", .str "Route not found"),
          ("path", .str "/unknown-route?page=2")]) } ∧
    (app ⟨none⟩ ⟨0, 0, 0⟩
        ⟨"HEAD", "/unknown-route?page=2", some "/unknown-route", .absent⟩).response =
      { status := 404, body := none } ∧
    (app ⟨none⟩ ⟨0, 0, 0⟩
        ⟨"POST", "/api/users", some "/api/users", .absent⟩).response.status ≠ 404 :=
  ⟨(unmatched_request_404 ⟨none⟩ ⟨0, 0, 0⟩
      ⟨"GET", "/unknown-route?page=2", some "/unknown-route", .absent⟩ "/unknown-route").1
      (by decide) rfl rfl (by decide) (by decide),
   (unmatched_request_404 ⟨none⟩ ⟨0, 0, 0⟩
      ⟨"HEAD", "/unknown-route?page=2", some "/unknown-route", .absent⟩ "/unknown-route").1
      (by decide) rfl rfl (by decide) (by decide),
   (unmatched_request_404 ⟨none⟩ ⟨0, 0, 0⟩
      ⟨"POST", "/api/users", some "/api/users", .absent⟩ "/api/users").2 (by decide)⟩

/-- C4 fails as stated, on three requests that match none of the four routes:
a `DELETE` on an unknown path with a malformed JSON body is answered 500 by
the error handler; an `OPTIONS` request on an unknown path is answered 204 by
the CORS layer; and a `GET` on the path `/%`, which does not percent-decode,
is answered 400 by the default handler of the framework. -/
theorem unmatched_request_not_404 :
    matchesSomeRoute ⟨"DELETE", "/unknown-route", some "/unknown-route", .json (.error truncatedJson)⟩ = false ∧
    (app ⟨some "production"⟩ ⟨0, 0, 0⟩
        ⟨"DELETE", "/unknown-route", some "/unknown-route", .json (.error truncatedJson)⟩).response =
      { status := 500
        body := some (.obj [
          ("error", .str "Something went wrong!"),
          ("message", .str "Internal server error")]) } ∧
    matchesSomeRoute ⟨"OPTIONS", "/unknown-route", some "/unknown-route", .absent⟩ = false ∧
    (app ⟨some "production"⟩ ⟨0, 0, 0⟩ ⟨"OPTIONS", "/unknown-route", some "/unknown-route", .absent⟩).response =
      { status := 204, body := none } ∧
    matchesSomeRoute ⟨"GET", "/%", some "/%", .absent⟩ = false ∧
    (app ⟨some "production"⟩ ⟨0, 0, 0⟩ ⟨"GET", "/%", some "/%", .absent⟩).response =
      { status := 400, body := none } := by
  refine ⟨by decide, rfl, by decide, rfl, by decide, rfl⟩

/-! ## GET / -/

/-- C9, as the code has it: for every `GET /` request that the body parsers do
not reject, whatever else it carries, after any sequence of earlier requests,
for every clock reading and every environment setting, the answer is 200 with
exactly `message: "Jenkins CI/CD Demo API"`, `version: "1.0.0"`, `timestamp`,
the ISO rendering of the current time, and `environment`, the configured
environment name: the value of `NODE_ENV` when it is set to a name, and
`"development"` when it is not set or empty. -/
theorem root_info_response (cfg : Config) (s : ProcState) (history : List Event) (ev : Event)
    (hm : ev.req.method = "GET") (hp : pathMatches "/" ev.req = true)
    (he : ev.req.parseError = none) :
    (respondAfter cfg s history ev).response =
      { status := 200
        body := some (.obj [
          ("message", .str "Jenkins CI/CD Demo API"),
          ("version", .str "1.0.0"),
          ("timestamp", .str (toISOString ev.newDate)),
          ("environment", .str cfg.environmentName)]) } ∧
    (∀ name, cfg.NODE_ENV = some name → name ≠ "" → cfg.environmentName = name) ∧
    (cfg.NODE_ENV = none ∨ cfg.NODE_ENV = some "" → cfg.environmentName = "development") := by
  refine ⟨?_, ?_, ?_⟩
  · rw [respondAfter_eq, app_get_root cfg _ ev.req hm hp he, rootHandler_eq]
    rfl
  · intro name hname hne
    simp [Config.environmentName, hname, hne]
  · intro hnone
    rcases hnone with h | h <;> simp [Config.environmentName, h]

/-- The C9 statement in production, for a `GET /?verbose=1` that follows a
create-user request. -/
theorem root_info_response_witness :
    (respondAfter ⟨some "production"⟩ ProcState.start
        [⟨5, 1700000000000, 1700000000000, ⟨"POST", "/api/users", some "/api/users", .json (.ok (.object
          [("name", .str "Test User"), ("role", .str "QA Engineer")]))⟩⟩]
        ⟨7, 1700000000123, 1700000000123, ⟨"GET", "/?verbose=1", some "/", .absent⟩⟩).response =
      { status := 200
        body := some (.obj [
          ("message", .str "Jenkins CI/CD Demo API"),
          ("version", .str "1.0.0"),
          ("timestamp", .str (toISOString 1700000000123)),
          ("environment", .str "production")]) } :=
  (root_info_response ⟨some "production"⟩ ProcState.start
    [⟨5, 1700000000000, 1700000000000, ⟨"POST", "/api/users", some "/api/users", .json (.ok (.object
      [("name", .str "Test User"), ("role", .str "QA Engineer")]))⟩⟩]
    ⟨7, 1700000000123, 1700000000123, ⟨"GET", "/?verbose=1", some "/", .absent⟩⟩
    rfl (by decide) rfl).1

/-- C9 fails as stated: a `GET /` request that carries a malformed JSON body
is answered 500 by the error handler, so the answer does depend on the
content of the request. -/
theorem root_request_malformed_body_500 :
    (respondAfter ⟨some "production"⟩ ProcState.start []
        ⟨7, 1700000000123, 1700000000123, ⟨"GET", "/", some "/",
          .json (.error truncatedJson)⟩⟩).response =
      { status := 500
        body := some (.obj [
          ("error", .str "Something went wrong!"),
          ("message", .str "Internal server error")]) } := by
  rfl

/-! ## GET /api/users -/

/-- C3, as the code has it: after every sequence of earlier requests, creates
included, a `GET /api/users` request that the body parsers do not reject is
answered 200 with the three seed users Alice, Bob and Charlie (ids 1, 2, 3) in
that order and `count` 3, the length of the list. -/
theorem list_users_after_any_history (cfg : Config) (s : ProcState) (history : List Event)
    (ev : Event) (hm : ev.req.method = "GET") (hp : pathMatches "/api/users" ev.req = true)
    (he : ev.req.parseError = none) :
    (respondAfter cfg s history ev).response =
      { status := 200
        body := some (.obj [
          ("users", .arr [
            .obj [("id", .ofInt 1), ("name", .str "Alice"), ("role", .str "DevOps Engineer")],
            .obj [("id", .ofInt 2), ("name", .str "Bob"), ("role", .str "Developer")],
            .obj [("id", .ofInt 3), ("name", .str "Charlie"), ("role", .str "SRE")]]),
          ("count", .ofInt 3)]) } ∧
    users.length = 3 := by
  refine ⟨?_, rfl⟩
  rw [respondAfter_eq, app_get_users cfg _ ev.req hm hp he, listUsersHandler_eq]

/-- The C3 statement for a `GET /api/users` that follows two successful
creates. -/
theorem list_users_after_any_history_witness :
    (respondAfter ⟨none⟩ ProcState.start
        [⟨5, 1700000000000, 1700000000000, ⟨"POST", "/api/users", some "/api/users", .json (.ok (.object
          [("name", .str "Test User"), ("role", .str "QA Engineer")]))⟩⟩,
         ⟨6, 1700000000050, 1700000000050, ⟨"POST", "/api/users", some "/api/users", .json (.ok (.object
          [("name", .str "Dana"), ("role", .str "Developer")]))⟩⟩]
        ⟨7, 1700000000123, 1700000000123, ⟨"GET", "/api/users", some "/api/users", .absent⟩⟩).response =
      { status := 200
        body := some (.obj [
          ("users", .arr [
            .obj [("id", .ofInt 1), ("name", .str "Alice"), ("role", .str "DevOps Engineer")],
            .obj [("id", .ofInt 2), ("name", .str "Bob"), ("role", .str "Developer")],
            .obj [("id", .ofInt 3), ("name", .str "Charlie"), ("role", .str "SRE")]]),
          ("count", .ofInt 3)]) } :=
  (list_users_after_any_history ⟨none⟩ ProcState.start
    [⟨5, 1700000000000, 1700000000000, ⟨"POST", "/api/users", some "/api/users", .json (.ok (.object
      [("name", .str "Test User"), ("role", .str "QA Engineer")]))⟩⟩,
     ⟨6, 1700000000050, 1700000000050, ⟨"POST", "/api/users", some "/api/users", .json (.ok (.object
      [("name", .str "Dana"), ("role", .str "Developer")]))⟩⟩]
    ⟨7, 1700000000123, 1700000000123, ⟨"GET", "/api/users", some "/api/users", .absent⟩⟩
    rfl (by decide) rfl).1

/-- C3 fails as stated: a `GET /api/users` request that carries a malformed
JSON body is answered 500 by the error handler, not 200 with the list. -/
theorem list_users_malformed_body_500 :
    (respondAfter ⟨none⟩ ProcState.start []
        ⟨7, 1700000000123, 1700000000123, ⟨"GET", "/api/users", some "/api/users",
          .json (.error truncatedJson)⟩⟩).response =
      { status := 500
        body := some (.obj [
          ("error", .str "Something went wrong!"),
          ("message", .str "Internal server error")]) } := by
  rfl

/-! ## GET /health -/

/-- C10, as the code has it: every `GET /health` request that the body parsers
do not reject is answered 200 with exactly `status: "healthy"`, `uptime` and
`timestamp`; `uptime` is the running time of the process in seconds, it is not
negative, and of two such calls in one process lifetime the later one does not
report a smaller `uptime` than the earlier one. -/
theorem health_uptime_monotone (cfg : Config) (s : ProcState)
    (history between : List Event) (e₁ e₂ : Event)
    (hm₁ : e₁.req.method = "GET") (hp₁ : pathMatches "/health" e₁.req = true)
    (he₁ : e₁.req.parseError = none)
    (hm₂ : e₂.req.method = "GET") (hp₂ : pathMatches "/health" e₂.req = true)
    (he₂ : e₂.req.parseError = none) :
    (respondAfter cfg s history e₁).response =
      { status := 200
        body := some (.obj [
          ("status", .str "healthy"),
          ("uptime", .num (.finite (uptimeAt cfg s history e₁))),
          ("timestamp", .str (toISOString e₁.newDate))]) } ∧
    (respondAfter cfg s (history ++ e₁ :: between) e₂).response =
      { status := 200
        body := some (.obj [
          ("status", .str "healthy"),
          ("uptime", .num (.finite (uptimeAt cfg s (history ++ e₁ :: between) e₂))),
          ("timestamp", .str (toISOString e₂.newDate))]) } ∧
    0 ≤ uptimeAt cfg s history e₁ ∧
    uptimeAt cfg s history e₁ ≤ uptimeAt cfg s (history ++ e₁ :: between) e₂ := by
  refine ⟨?_, ?_, ?_, ?_⟩
  · rw [respondAfter_eq, app_get_health cfg _ e₁.req hm₁ hp₁ he₁, healthHandler_eq]
    rfl
  · rw [respondAfter_eq, app_get_health cfg _ e₂.req hm₂ hp₂ he₂, healthHandler_eq]
    rfl
  · unfold uptimeAt World.uptime
    positivity
  · unfold uptimeAt World.uptime
    have hmono := uptime_le_exec cfg between ((exec cfg s history).advance e₁)
    have hle : (e₁.world (exec cfg s history)).uptimeNs ≤
        (e₂.world (exec cfg s (history ++ e₁ :: between))).uptimeNs := by
      rw [exec_append, exec_cons]
      simp only [Event.world, ProcState.advance] at hmono ⊢
      omega
    have hq : ((e₁.world (exec cfg s history)).uptimeNs : ℚ) ≤
        ((e₂.world (exec cfg s (history ++ e₁ :: between))).uptimeNs : ℚ) := by
      exact_mod_cast hle
    exact div_le_div_of_nonneg_right hq (by norm_num)

/-- The C10 statement for two health checks two and a half seconds apart, with
a create-user request between them. -/
theorem health_uptime_monotone_witness :
    (respondAfter ⟨none⟩ ProcState.start []
        ⟨2000000000, 1700000000000, 1700000000000, ⟨"GET", "/health", some "/health", .absent⟩⟩).response =
      { status := 200
        body := some (.obj [
          ("status", .str "healthy"),
          ("uptime", .num (.finite (uptimeAt ⟨none⟩ ProcState.start []
            ⟨2000000000, 1700000000000, 1700000000000, ⟨"GET", "/health", some "/health", .absent⟩⟩))),
          ("timestamp", .str (toISOString 1700000000000))]) } ∧
    uptimeAt ⟨none⟩ ProcState.start []
        ⟨2000000000, 1700000000000, 1700000000000, ⟨"GET", "/health", some "/health", .absent⟩⟩ ≤
      uptimeAt ⟨none⟩ ProcState.start
        ([] ++ ⟨2000000000, 1700000000000, 1700000000000, ⟨"GET", "/health", some "/health", .absent⟩⟩ ::
          [⟨1500000000, 1700000001500, 1700000001500, ⟨"POST", "/api/users", some "/api/users", .json (.ok
            (.object [("name", .str "Test User"), ("role", .str "QA Engineer")]))⟩⟩])
        ⟨1000000000, 1700000002500, 1700000002500, ⟨"GET", "/health/", some "/health/", .absent⟩⟩ := by
  have h := health_uptime_monotone ⟨none⟩ ProcState.start []
    [⟨1500000000, 1700000001500, 1700000001500, ⟨"POST", "/api/users", some "/api/users", .json (.ok
      (.object [("name", .str "Test User"), ("role", .str "QA Engineer")]))⟩⟩]
    ⟨2000000000, 1700000000000, 1700000000000, ⟨"GET", "/health", some "/health", .absent⟩⟩
    ⟨1000000000, 1700000002500, 1700000002500, ⟨"GET", "/health/", some "/health/", .absent⟩⟩
    rfl (by decide) rfl rfl (by decide) rfl
  exact ⟨h.1, h.2.2.2⟩

/-- C10 fails as stated: a `GET /health` request that carries a malformed JSON
body is answered 500 by the error handler, with no `uptime` in the body. -/
theorem health_malformed_body_500 :
    (respondAfter ⟨none⟩ ProcState.start []
        ⟨2000000000, 1700000000000, 1700000000000, ⟨"GET", "/health", some "/health",
          .json (.error truncatedJson)⟩⟩).response =
      { status := 500
        body := some (.obj [
          ("error", .str "Something went wrong!"),
          ("message", .str "Internal server error")]) } := by
  rfl

end JenkinsDemo
